import Mathlib

/-!
Verification of the 21-step MD equilibration protocol
(`src/twentyonestep/protocol.py`).

The file gives a shallow embedding of the two classes of the source,
`MDStep` (stage executor) and `TwentyOneStepProtocol` (scheduler), and
proves the documented properties of the schedule generation, the stage
execution order, the barostat reconciliation and the error behaviour.

The external OpenMM simulation engine (explicitly out of scope for the
repository, see the spec) is modelled as an instrumented context
`SimState`: every engine call appends an `Event` to a trace and bumps a
call counter, and the context can be configured to raise an engine error
at a given call index (`failAt`), which models an arbitrary engine-level
failure during a stage.  Python `Quantity` values are modelled as exact
rationals tagged with a dimension; Python exceptions are modelled with
`Except PyError`.
-/

namespace TwentyOneStep

/-- Dimensional kind of a physical quantity (openmm.unit dimensions used
by the protocol: kelvin, bar, picosecond). -/
inductive Dimension
  | temperature
  | pressure
  | time
deriving DecidableEq

/-- Model of `openmm.unit.Quantity`: an exact rational value in a fixed
base unit of its dimension (kelvin, bar, picosecond). -/
structure Quantity where
  value : ℚ
  dim : Dimension
deriving DecidableEq

/-- `q * c` for a quantity and a bare scalar, as in `max_pressure * 0.02`. -/
def Quantity.mulScalar (q : Quantity) (c : ℚ) : Quantity :=
  { value := q.value * c, dim := q.dim }

/-- `v * unit.kelvin`. -/
def kelvin (v : ℚ) : Quantity := { value := v, dim := Dimension.temperature }

/-- `v * unit.bar`. -/
def bar (v : ℚ) : Quantity := { value := v, dim := Dimension.pressure }

/-- `v * unit.picosecond`. -/
def picosecond (v : ℚ) : Quantity := { value := v, dim := Dimension.time }

/-- Python's built-in `round` on a number: round half to even. -/
def pyRound (x : ℚ) : ℤ :=
  if x - x.floor < 1 / 2 then x.floor
  else if 1 / 2 < x - x.floor then x.floor + 1
  else if x.floor % 2 = 0 then x.floor
  else x.floor + 1

/-- A force term of the simulation system: either an
`openmm.MonteCarloBarostat` (pressure, temperature, frequency) or some
other force, identified by a tag. -/
inductive Force
  | monteCarloBarostat (pressure : Quantity) (temperature : Quantity) (frequency : ℤ)
  | otherForce (id : ℕ)
deriving DecidableEq

/-- `isinstance(force, MonteCarloBarostat)`. -/
def Force.isBarostat : Force → Bool
  | Force.monteCarloBarostat _ _ _ => true
  | Force.otherForce _ => false

/-- One engine call observable on the instrumented context. -/
inductive Event
  | setTemperature (t : Quantity)
  | setVelocitiesToTemperature (t : Quantity)
  | removeForce (i : ℕ)
  | addForce (f : Force)
  | reinit (preserveState : Bool)
  | advance (n : ℤ)
deriving DecidableEq

/-- Python exceptions raised by the source or by the engine. -/
inductive PyError
  | typeError (msg : String)
  | runtimeError (msg : String)
  | openmmError (msg : String)
  | engineError (call : ℕ)
deriving DecidableEq

/-- Instrumented model of the shared mutable simulation context: the
current force list of the system, the integrator step size, a recorded
trace of engine calls, a call counter, and an optional call index at
which the engine raises (fault injection for engine-error claims). -/
structure SimState where
  forces : List Force
  stepSize : Quantity
  trace : List Event
  calls : ℕ
  failAt : Option ℕ
deriving DecidableEq

/-- Whether the next engine call raises. -/
def SimState.failing (s : SimState) : Bool :=
  decide (s.failAt = some s.calls)

/-- Record one engine call. -/
def SimState.emit (s : SimState) (e : Event) : SimState :=
  { s with trace := s.trace ++ [e], calls := s.calls + 1 }

/-- `simulation.integrator.setTemperature(t)`. -/
def setTemperature (s : SimState) (t : Quantity) : Except PyError SimState :=
  if s.failing then Except.error (PyError.engineError s.calls)
  else Except.ok (s.emit (Event.setTemperature t))

/-- `simulation.context.setVelocitiesToTemperature(t)`. -/
def setVelocitiesToTemperature (s : SimState) (t : Quantity) : Except PyError SimState :=
  if s.failing then Except.error (PyError.engineError s.calls)
  else Except.ok (s.emit (Event.setVelocitiesToTemperature t))

/-- `system.removeForce(i)`: removes the force at index `i`, shifting the
indices of all later forces down by one; raises an OpenMM error when the
index is out of range. -/
def removeForce (s : SimState) (i : ℕ) : Except PyError SimState :=
  if s.failing then Except.error (PyError.engineError s.calls)
  else if i < s.forces.length then
    Except.ok { s.emit (Event.removeForce i) with forces := s.forces.eraseIdx i }
  else Except.error (PyError.openmmError ("Index out of range"))

/-- `system.addForce(f)`: appends a force at the end of the force list. -/
def addForce (s : SimState) (f : Force) : Except PyError SimState :=
  if s.failing then Except.error (PyError.engineError s.calls)
  else Except.ok { s.emit (Event.addForce f) with forces := s.forces ++ [f] }

/-- `simulation.context.reinitialize(preserveState=...)`. -/
def reinit (s : SimState) (preserveState : Bool) : Except PyError SimState :=
  if s.failing then Except.error (PyError.engineError s.calls)
  else Except.ok (s.emit (Event.reinit preserveState))

/-- `simulation.step(n)`. -/
def advance (s : SimState) (n : ℤ) : Except PyError SimState :=
  if s.failing then Except.error (PyError.engineError s.calls)
  else Except.ok (s.emit (Event.advance n))

/-- A dynamically typed Python value, as seen by the `isinstance`
validation guards of the source. -/
inductive PyValue
  | quantity (q : Quantity)
  | int (n : ℤ)
  | str (s : String)
  | pynone
deriving DecidableEq

/-- `isinstance(v, Quantity)`. -/
def PyValue.isQuantity : PyValue → Bool
  | PyValue.quantity _ => true
  | _ => false

/-- `isinstance(v, int)`. -/
def PyValue.isInt : PyValue → Bool
  | PyValue.int _ => true
  | _ => false

/-- `isinstance(v, str)`. -/
def PyValue.isStr : PyValue → Bool
  | PyValue.str _ => true
  | _ => false

/-- `v is None`. -/
def PyValue.isNone : PyValue → Bool
  | PyValue.pynone => true
  | _ => false

/-- The quantity held by a Python value, when it is one. -/
def PyValue.getQuantity : PyValue → Option Quantity
  | PyValue.quantity q => some q
  | _ => none

/-- The state of a constructed `MDStep` object: the stage's target
conditions and the step count frozen at construction
(`self.steps = int(round(time / timestep))`). -/
structure MDStep where
  temperature : Quantity
  pressure : Option Quantity
  time : Quantity
  name : String
  steps : ℤ
deriving DecidableEq

/-- `MDStep.__init__`: validates the argument types in source order
(temperature and time must be `Quantity`; pressure must be `Quantity` or
`None`; name must be `str`; the `simulation` argument is typed in this
embedding so its `isinstance` guard always passes), then stores the
fields and freezes `steps = int(round(time / timestep))`, reading the
integrator step size from the context once, at construction. -/
def MDStep.init (sim : SimState) (temperature : PyValue) (pressure : PyValue)
    (time : PyValue) (name : PyValue) : Except PyError MDStep :=
  match temperature.getQuantity, time.getQuantity with
  | some tq, some dq =>
    if pressure.isNone = false ∧ pressure.isQuantity = false then
      Except.error (PyError.typeError
        ("Argument pressure should be an instance of openmm.unit.Quantity or None"))
    else
      match name with
      | PyValue.str nm =>
        Except.ok
          { temperature := tq
            pressure := pressure.getQuantity
            time := dq
            name := nm
            steps := pyRound (dq.value / sim.stepSize.value) }
      | _ => Except.error (PyError.typeError ("Argument name should be an instance of str"))
  | _, _ =>
    Except.error (PyError.typeError
      ("Arguments temperature and time should be instances of openmm.unit.Quantity"))

/-- The removal loop of `MDStep._set_barostat`:
`for i, force in enumerate(list(system.getForces())):` removing, by its
snapshot index, every force that is a `MonteCarloBarostat`. -/
def removeBarostatLoop : List (ℕ × Force) → SimState → Except PyError SimState
  | [], s => Except.ok s
  | (i, f) :: rest, s =>
    if f.isBarostat then
      match removeForce s i with
      | Except.error e => Except.error e
      | Except.ok s1 => removeBarostatLoop rest s1
    else removeBarostatLoop rest s

/-- `MDStep._set_barostat(frequency)`: runs the removal loop over a
snapshot of the current force list, then, if the stage has a pressure,
adds a fresh `MonteCarloBarostat(pressure, temperature, frequency)`. -/
def MDStep.set_barostat (md : MDStep) (frequency : ℤ) (s : SimState) :
    Except PyError SimState :=
  match removeBarostatLoop s.forces.enum s with
  | Except.error e => Except.error e
  | Except.ok s1 =>
    match md.pressure with
    | some p => addForce s1 (Force.monteCarloBarostat p md.temperature frequency)
    | none => Except.ok s1

/-- `MDStep.run(frequency)`: set the integrator temperature, randomize
the velocities to it, reconcile the barostat, reinitialize preserving
state, and advance by the frozen step count.  The `print` calls of the
source are logging only and do not touch the context. -/
def MDStep.run (md : MDStep) (frequency : ℤ) (s : SimState) : Except PyError SimState :=
  match setTemperature s md.temperature with
  | Except.error e => Except.error e
  | Except.ok s1 =>
    match setVelocitiesToTemperature s1 md.temperature with
    | Except.error e => Except.error e
    | Except.ok s2 =>
      match md.set_barostat frequency s2 with
      | Except.error e => Except.error e
      | Except.ok s3 =>
        match reinit s3 true with
        | Except.error e => Except.error e
        | Except.ok s4 => advance s4 md.steps

/-- One entry (dict) of `TwentyOneStepProtocol.schedule`. -/
structure Stage where
  temperature : Quantity
  pressure : Option Quantity
  time : Quantity
  name : String
deriving DecidableEq

/-- `TwentyOneStepProtocol._generate_schedule(max_pressure, max_temperature)`:
the literal 21-entry table of the source. -/
def generate_schedule (max_pressure : Quantity) (max_temperature : Quantity) : List Stage :=
  [ { temperature := max_temperature, pressure := none,
      time := picosecond 50, name := "md1" },
    { temperature := kelvin 300, pressure := none,
      time := picosecond 50, name := "md2" },
    { temperature := kelvin 300, pressure := some (max_pressure.mulScalar 0.02),
      time := picosecond 50, name := "md3" },
    { temperature := max_temperature, pressure := none,
      time := picosecond 50, name := "md4" },
    { temperature := kelvin 300, pressure := none,
      time := picosecond 100, name := "md5" },
    { temperature := kelvin 300, pressure := some (max_pressure.mulScalar 0.6),
      time := picosecond 50, name := "md6" },
    { temperature := max_temperature, pressure := none,
      time := picosecond 50, name := "md7" },
    { temperature := kelvin 300, pressure := none,
      time := picosecond 100, name := "md8" },
    { temperature := kelvin 300, pressure := some max_pressure,
      time := picosecond 50, name := "md9" },
    { temperature := max_temperature, pressure := none,
      time := picosecond 50, name := "md10" },
    { temperature := kelvin 300, pressure := none,
      time := picosecond 100, name := "md11" },
    { temperature := kelvin 300, pressure := some (max_pressure.mulScalar 0.5),
      time := picosecond 5, name := "md12" },
    { temperature := max_temperature, pressure := none,
      time := picosecond 5, name := "md13" },
    { temperature := kelvin 300, pressure := none,
      time := picosecond 10, name := "md14" },
    { temperature := kelvin 300, pressure := some (max_pressure.mulScalar 0.1),
      time := picosecond 5, name := "md15" },
    { temperature := max_temperature, pressure := none,
      time := picosecond 5, name := "md16" },
    { temperature := kelvin 300, pressure := none,
      time := picosecond 10, name := "md17" },
    { temperature := kelvin 300, pressure := some (max_pressure.mulScalar 0.01),
      time := picosecond 5, name := "md18" },
    { temperature := max_temperature, pressure := none,
      time := picosecond 5, name := "md19" },
    { temperature := kelvin 300, pressure := none,
      time := picosecond 10, name := "md20" },
    { temperature := kelvin 300, pressure := some (bar 1),
      time := picosecond 800, name := "md21" } ]

/-- Default of the constructor's `max_pressure` parameter: `50_000 * unit.bar`. -/
def default_max_pressure : Quantity := bar 50000

/-- Default of the constructor's `max_temperature` parameter: `600 * unit.kelvin`. -/
def default_max_temperature : Quantity := kelvin 600

/-- The state of a constructed `TwentyOneStepProtocol`: its schedule. -/
structure TwentyOneStepProtocol where
  schedule : List Stage
deriving DecidableEq

/-- `TwentyOneStepProtocol.__init__`: after type validation (both
parameters must be `Quantity`, which the typed arguments here satisfy) it
calls `self._generate_schedule(max_pressure)` — without forwarding its
`max_temperature` argument, so `_generate_schedule`'s own default of
`600 * unit.kelvin` is always used. -/
def TwentyOneStepProtocol.init (max_pressure : Quantity) (max_temperature : Quantity) :
    TwentyOneStepProtocol :=
  { schedule := generate_schedule max_pressure (kelvin 600) }

/-- The Python value passed for a schedule entry's optional pressure. -/
def pressurePy : Option Quantity → PyValue
  | some q => PyValue.quantity q
  | none => PyValue.pynone

/-- One iteration of the `TwentyOneStepProtocol.run` loop:
`step = MDStep(simulation=self.simulation, **task); step.run(frequency=barostat_frequency)`. -/
def stageExec (frequency : ℤ) (task : Stage) (s : SimState) : Except PyError SimState :=
  match MDStep.init s (PyValue.quantity task.temperature) (pressurePy task.pressure)
      (PyValue.quantity task.time) (PyValue.str task.name) with
  | Except.error e => Except.error e
  | Except.ok md => md.run frequency s

/-- The `for task in self.schedule:` loop of `TwentyOneStepProtocol.run`. -/
def runStages (frequency : ℤ) : List Stage → SimState → Except PyError SimState
  | [], s => Except.ok s
  | task :: rest, s =>
    match stageExec frequency task s with
    | Except.error e => Except.error e
    | Except.ok s1 => runStages frequency rest s1

/-- `TwentyOneStepProtocol.run(barostat_frequency)`: validates that the
frequency is an `int`, checks the defensive empty-schedule invariant,
then executes the stages strictly in order. -/
def TwentyOneStepProtocol.run (p : TwentyOneStepProtocol) (barostat_frequency : PyValue)
    (s : SimState) : Except PyError SimState :=
  match barostat_frequency with
  | PyValue.int f =>
    if p.schedule = [] then
      Except.error (PyError.runtimeError
        ("Schedule is empty. Probably an error ocured during schedule generation."))
    else runStages f p.schedule s
  | _ =>
    Except.error (PyError.typeError
      ("Argument barostat_frequency should be an instance of int"))

/-- Whether the result of a call is a raised `TypeError`. -/
def resultIsTypeError : Except PyError SimState → Bool
  | Except.error (PyError.typeError _) => true
  | _ => false

/-- Whether a call completed without raising. -/
def resultIsOk : Except PyError SimState → Bool
  | Except.ok _ => true
  | _ => false

/-- An event that is part of the barostat reconciliation (a force-list edit). -/
def Event.isBarostatEdit : Event → Bool
  | Event.removeForce _ => true
  | Event.addForce _ => true
  | _ => false

/-- A plain healthy context: no forces, 2 fs = 1/500 ps integrator step
size, no fault injected. -/
def baseState : SimState :=
  { forces := [], stepSize := picosecond (1 / 500), trace := [], calls := 0, failAt := none }

/-- Claim C1: for every `max_pressure` quantity, the schedule generated at
construction has exactly 21 entries named "md1".."md21" in order, with
pressures (in stage order) None, None, 0.02*max_pressure, None, None,
0.6*max_pressure, None, None, max_pressure, None, None, 0.5*max_pressure,
None, None, 0.1*max_pressure, None, None, 0.01*max_pressure, None, None,
and an absolute 1 bar for md21; and the final stage md21 has temperature
300 K, pressure 1 bar, and duration 800 ps. -/
theorem c1_schedule_shape (q : Quantity) (t : Quantity) :
    (TwentyOneStepProtocol.init q t).schedule.length = 21 ∧
    (TwentyOneStepProtocol.init q t).schedule.map Stage.name =
      ["md1", "md2", "md3", "md4", "md5", "md6", "md7", "md8", "md9", "md10", "md11",
       "md12", "md13", "md14", "md15", "md16", "md17", "md18", "md19", "md20", "md21"] ∧
    (TwentyOneStepProtocol.init q t).schedule.map Stage.pressure =
      [none, none, some (q.mulScalar 0.02), none, none, some (q.mulScalar 0.6), none, none,
       some q, none, none, some (q.mulScalar 0.5), none, none, some (q.mulScalar 0.1),
       none, none, some (q.mulScalar 0.01), none, none, some (bar 1)] ∧
    (TwentyOneStepProtocol.init q t).schedule.getLast? =
      some { temperature := kelvin 300, pressure := some (bar 1), time := picosecond 800,
             name := "md21" } :=
  ⟨rfl, rfl, rfl, rfl⟩

/-- Claim C2 (code bug witness): constructing the protocol with
`max_temperature = 500 K` still yields a schedule whose md1 stage has
temperature 600 K, because `__init__` never forwards its
`max_temperature` argument to `_generate_schedule`. -/
theorem c2_passed_max_temperature_ignored :
    ((TwentyOneStepProtocol.init (bar 50000) (kelvin 500)).schedule.map
        Stage.temperature).head? = some (kelvin 600) ∧
    kelvin 600 ≠ kelvin 500 :=
  ⟨rfl, by decide⟩

/-- Claim C3: the constructor does not forward `max_temperature`: for any
two quantities `t1`, `t2` and the same `max_pressure`, the generated
schedules are identical, and the high-temperature stages always carry
`_generate_schedule`'s own 600 K default. -/
theorem c3_schedule_independent_of_max_temperature (p t1 t2 : Quantity) :
    (TwentyOneStepProtocol.init p t1).schedule = (TwentyOneStepProtocol.init p t2).schedule ∧
    (TwentyOneStepProtocol.init p t1).schedule.map Stage.temperature =
      [kelvin 600, kelvin 300, kelvin 300, kelvin 600, kelvin 300, kelvin 300,
       kelvin 600, kelvin 300, kelvin 300, kelvin 600, kelvin 300, kelvin 300,
       kelvin 600, kelvin 300, kelvin 300, kelvin 600, kelvin 300, kelvin 300,
       kelvin 600, kelvin 300, kelvin 300] :=
  ⟨rfl, rfl⟩

/-- Claim C10: with the constructor's default `max_pressure` of
50,000 bar, md9 has pressure 50,000 bar and the other pressure-controlled
stages scale from it (1,000 / 30,000 / 25,000 / 5,000 / 500 bar), with
md21 at the absolute 1 bar. -/
theorem c10_default_max_pressure (t : Quantity) :
    default_max_pressure = bar 50000 ∧
    (TwentyOneStepProtocol.init default_max_pressure t).schedule.map Stage.pressure =
      [none, none, some (bar 1000), none, none, some (bar 30000), none, none,
       some (bar 50000), none, none, some (bar 25000), none, none, some (bar 5000),
       none, none, some (bar 500), none, none, some (bar 1)] := by
  refine ⟨rfl, ?_⟩
  change (generate_schedule default_max_pressure (kelvin 600)).map Stage.pressure = _
  norm_num [generate_schedule, default_max_pressure, Quantity.mulScalar, bar,
    Quantity.mk.injEq]

/-- A system already holding two barostats and one further force: the
concrete context on which the removal loop of `_set_barostat` misfires. -/
def c4_state : SimState :=
  { forces :=
      [Force.monteCarloBarostat (bar 1) (kelvin 300) 25,
       Force.monteCarloBarostat (bar 2) (kelvin 300) 25,
       Force.otherForce 7]
    stepSize := picosecond (1 / 500)
    trace := []
    calls := 0
    failAt := none }

/-- A stage without pressure control, as md2 of the schedule would be. -/
def c4_md : MDStep :=
  { temperature := kelvin 300, pressure := none, time := picosecond 50, name := "md2",
    steps := 25000 }

/-- Claim C4 (code bug witness): running a pressure-less stage on a
context that holds two `MonteCarloBarostat` forces does not clear them:
removal by snapshot index shifts the list, so the second barostat
survives (and the unrelated force is removed instead), leaving a
pressure-control force active although the stage's pressure is None. -/
theorem c4_second_barostat_survives :
    c4_md.pressure = none ∧
    Except.map SimState.forces (MDStep.run c4_md 500 c4_state) =
      Except.ok [Force.monteCarloBarostat (bar 2) (kelvin 300) 25] :=
  ⟨rfl, rfl⟩

theorem setTemperature_ok_trace {s s1 : SimState} {t : Quantity}
    (h : setTemperature s t = Except.ok s1) :
    s1.trace = s.trace ++ [Event.setTemperature t] := by
  unfold setTemperature at h
  split at h
  · exact Except.noConfusion h
  · cases Except.ok.inj h
    rfl

theorem setVelocities_ok_trace {s s1 : SimState} {t : Quantity}
    (h : setVelocitiesToTemperature s t = Except.ok s1) :
    s1.trace = s.trace ++ [Event.setVelocitiesToTemperature t] := by
  unfold setVelocitiesToTemperature at h
  split at h
  · exact Except.noConfusion h
  · cases Except.ok.inj h
    rfl

theorem removeForce_ok_trace {s s1 : SimState} {i : ℕ}
    (h : removeForce s i = Except.ok s1) :
    s1.trace = s.trace ++ [Event.removeForce i] := by
  unfold removeForce at h
  split at h
  · exact Except.noConfusion h
  · split at h
    · cases Except.ok.inj h
      rfl
    · exact Except.noConfusion h

theorem addForce_ok_trace {s s1 : SimState} {f : Force}
    (h : addForce s f = Except.ok s1) :
    s1.trace = s.trace ++ [Event.addForce f] := by
  unfold addForce at h
  split at h
  · exact Except.noConfusion h
  · cases Except.ok.inj h
    rfl

theorem reinit_ok_trace {s s1 : SimState} {b : Bool}
    (h : reinit s b = Except.ok s1) :
    s1.trace = s.trace ++ [Event.reinit b] := by
  unfold reinit at h
  split at h
  · exact Except.noConfusion h
  · cases Except.ok.inj h
    rfl

theorem advance_ok_trace {s s1 : SimState} {n : ℤ}
    (h : advance s n = Except.ok s1) :
    s1.trace = s.trace ++ [Event.advance n] := by
  unfold advance at h
  split at h
  · exact Except.noConfusion h
  · cases Except.ok.inj h
    rfl

/-- The removal loop only performs force-removal calls: a successful run
appends only `removeForce` events (hence barostat edits) to the trace. -/
theorem removeBarostatLoop_trace (pairs : List (ℕ × Force)) :
    ∀ (s s1 : SimState), removeBarostatLoop pairs s = Except.ok s1 →
      ∃ bt, s1.trace = s.trace ++ bt ∧ ∀ e ∈ bt, e.isBarostatEdit = true := by
  induction pairs with
  | nil =>
    intro s s1 h
    cases Except.ok.inj h
    exact ⟨[], by simp, by intro e he; cases he⟩
  | cons p rest ih =>
    intro s s1 h
    obtain ⟨i, f⟩ := p
    rw [removeBarostatLoop] at h
    split at h
    · cases hrf : removeForce s i with
      | error e =>
        rw [hrf] at h
        exact Except.noConfusion h
      | ok s2 =>
        rw [hrf] at h
        obtain ⟨bt, hbt, hall⟩ := ih s2 s1 h
        refine ⟨Event.removeForce i :: bt, ?_, ?_⟩
        · rw [hbt, removeForce_ok_trace hrf, List.append_assoc]
          rfl
        · intro e he
          cases he with
          | head => rfl
          | tail _ hmem => exact hall e hmem
    · exact ih s s1 h

/-- A successful `_set_barostat` appends only force-list edits
(`removeForce` / `addForce` events) to the trace. -/
theorem set_barostat_ok_trace {md : MDStep} {f : ℤ} {s s1 : SimState}
    (h : md.set_barostat f s = Except.ok s1) :
    ∃ bt, s1.trace = s.trace ++ bt ∧ ∀ e ∈ bt, e.isBarostatEdit = true := by
  unfold MDStep.set_barostat at h
  cases hrl : removeBarostatLoop s.forces.enum s with
  | error e =>
    rw [hrl] at h
    exact Except.noConfusion h
  | ok s2 =>
    rw [hrl] at h
    obtain ⟨bt, hbt, hall⟩ := removeBarostatLoop_trace s.forces.enum s s2 hrl
    cases hp : md.pressure with
    | none =>
      rw [hp] at h
      cases Except.ok.inj h
      exact ⟨bt, hbt, hall⟩
    | some p =>
      rw [hp] at h
      refine ⟨bt ++ [Event.addForce (Force.monteCarloBarostat p md.temperature f)], ?_, ?_⟩
      · rw [addForce_ok_trace h, hbt, List.append_assoc]
      · intro e he
        rcases List.mem_append.mp he with h1 | h2
        · exact hall e h1
        · cases h2 with
          | head => rfl
          | tail _ hx => cases hx

/-- Decomposition of a successful `MDStep.run`: the engine-call trace of
the stage is exactly a temperature set, a velocity randomization, the
barostat force-list edits, a state-preserving reinitialization, and one
advancement by the frozen step count, in that order. -/
theorem run_ok_trace {md : MDStep} {f : ℤ} {s s1 : SimState}
    (h : md.run f s = Except.ok s1) :
    ∃ bt, (∀ e ∈ bt, e.isBarostatEdit = true) ∧
      s1.trace = s.trace ++
        [Event.setTemperature md.temperature,
         Event.setVelocitiesToTemperature md.temperature]
        ++ bt ++ [Event.reinit true, Event.advance md.steps] := by
  unfold MDStep.run at h
  cases h1 : setTemperature s md.temperature with
  | error e =>
    simp only [h1] at h
    exact Except.noConfusion h
  | ok sA =>
    simp only [h1] at h
    cases h2 : setVelocitiesToTemperature sA md.temperature with
    | error e =>
      simp only [h2] at h
      exact Except.noConfusion h
    | ok sB =>
      simp only [h2] at h
      cases h3 : md.set_barostat f sB with
      | error e =>
        simp only [h3] at h
        exact Except.noConfusion h
      | ok sC =>
        simp only [h3] at h
        cases h4 : reinit sC true with
        | error e =>
          simp only [h4] at h
          exact Except.noConfusion h
        | ok sD =>
          simp only [h4] at h
          obtain ⟨bt, hbt, hall⟩ := set_barostat_ok_trace h3
          refine ⟨bt, hall, ?_⟩
          rw [advance_ok_trace h, reinit_ok_trace h4, hbt,
            setVelocities_ok_trace h2, setTemperature_ok_trace h1]
          simp [List.append_assoc]

/-- Claim C5: a completed `MDStep.run` performs on the shared context, in
this order and nothing else: a target-temperature set, a velocity
randomization to that temperature, the barostat force-list
reconciliation, a reinitialization with `preserveState=True`, and one
advancement by exactly `self.steps` integration steps — observable as
the ordered call trace of the instrumented context. -/
theorem c5_run_call_order (md : MDStep) (f : ℤ) (s s1 : SimState)
    (h : md.run f s = Except.ok s1) :
    ∃ bt, (∀ e ∈ bt, e.isBarostatEdit = true) ∧
      s1.trace = s.trace ++
        [Event.setTemperature md.temperature,
         Event.setVelocitiesToTemperature md.temperature]
        ++ bt ++ [Event.reinit true, Event.advance md.steps] :=
  run_ok_trace h

/-- A concrete pressure-controlled stage used to witness the run trace. -/
def c5_md : MDStep :=
  { temperature := kelvin 300, pressure := some (bar 1), time := picosecond 50,
    name := "w", steps := 25000 }

/-- The context state left by running `c5_md` on `baseState`. -/
def c5_final : SimState :=
  { forces := [Force.monteCarloBarostat (bar 1) (kelvin 300) 500]
    stepSize := picosecond (1 / 500)
    trace :=
      [Event.setTemperature (kelvin 300), Event.setVelocitiesToTemperature (kelvin 300),
       Event.addForce (Force.monteCarloBarostat (bar 1) (kelvin 300) 500),
       Event.reinit true, Event.advance 25000]
    calls := 5
    failAt := none }

/-- Witness for C5 at a concrete stage and context. -/
theorem c5_run_call_order_witness :
    ∃ bt, (∀ e ∈ bt, e.isBarostatEdit = true) ∧
      c5_final.trace = baseState.trace ++
        [Event.setTemperature c5_md.temperature,
         Event.setVelocitiesToTemperature c5_md.temperature]
        ++ bt ++ [Event.reinit true, Event.advance c5_md.steps] :=
  c5_run_call_order c5_md 500 baseState c5_final rfl

/-- Claim C6: the step count of an `MDStep` equals Python's
`round(duration / step_size)` for the integrator step size read from the
context at construction time, and it is frozen there: a later run of the
stage advances by that frozen count on any context, whatever its current
step size. -/
theorem c6_steps_from_construction (s : SimState) (tq dq : Quantity) (P nm : PyValue)
    (md : MDStep)
    (h : MDStep.init s (PyValue.quantity tq) P (PyValue.quantity dq) nm = Except.ok md) :
    md.steps = pyRound (dq.value / s.stepSize.value) ∧
    ∀ (f : ℤ) (t u : SimState), md.run f t = Except.ok u →
      u.trace.getLast? = some (Event.advance md.steps) := by
  constructor
  · simp only [MDStep.init, PyValue.getQuantity] at h
    split at h
    · exact Except.noConfusion h
    · cases nm with
      | str nmv =>
        cases Except.ok.inj h
        rfl
      | quantity q2 => exact Except.noConfusion h
      | int n => exact Except.noConfusion h
      | pynone => exact Except.noConfusion h
  · intro f t u hu
    obtain ⟨bt, hall, htr⟩ := run_ok_trace hu
    rw [htr]
    rw [show t.trace ++
          [Event.setTemperature md.temperature,
           Event.setVelocitiesToTemperature md.temperature]
          ++ bt ++ [Event.reinit true, Event.advance md.steps] =
        (t.trace ++
          [Event.setTemperature md.temperature,
           Event.setVelocitiesToTemperature md.temperature]
          ++ bt ++ [Event.reinit true]) ++ [Event.advance md.steps] from by
      simp [List.append_assoc]]
    exact List.getLast?_concat _

/-- The `MDStep` value produced by constructing a 50 ps stage on a
context with a 2 fs integrator step size. -/
def c6_md : MDStep :=
  { temperature := kelvin 300, pressure := none, time := picosecond 50, name := "x",
    steps := pyRound ((picosecond 50).value / baseState.stepSize.value) }

/-- Witness for C6: with duration 50 ps and step size 2 fs the frozen
count is round(50 ps / 2 fs) = 25000. -/
theorem c6_steps_witness :
    c6_md.steps = pyRound ((picosecond 50).value / baseState.stepSize.value) ∧
    c6_md.steps = 25000 := by
  refine ⟨(c6_steps_from_construction baseState (kelvin 300) (picosecond 50) PyValue.pynone
      (PyValue.str "x") c6_md rfl).1, ?_⟩
  show pyRound ((picosecond 50).value / baseState.stepSize.value) = 25000
  norm_num [pyRound, picosecond, baseState, Rat.floor_def', Rat.num_ofNat, Rat.den_ofNat]

/-- Prefix-composition of the stage loop with a failing stage: if the
stages before `st` complete and `st` itself raises `e`, the whole loop
raises `e`, for every continuation `post` (so the stages after `st` are
never constructed or run). -/
theorem runStages_append_error (f : ℤ) (pre : List Stage) :
    ∀ (post : List Stage) (st : Stage) (s s1 : SimState) (e : PyError),
      runStages f pre s = Except.ok s1 → stageExec f st s1 = Except.error e →
      runStages f (pre ++ st :: post) s = Except.error e := by
  induction pre with
  | nil =>
    intro post st s s1 e hpre herr
    cases Except.ok.inj hpre
    simp only [List.nil_append, runStages, herr]
  | cons a pre2 ih =>
    intro post st s s1 e hpre herr
    rw [runStages] at hpre
    cases ha : stageExec f a s with
    | error e2 =>
      simp only [ha] at hpre
      exact Except.noConfusion hpre
    | ok s2 =>
      simp only [ha] at hpre
      show runStages f (a :: (pre2 ++ st :: post)) s = Except.error e
      rw [runStages]
      simp only [ha]
      exact ih post st s2 s1 e hpre herr

/-- Claim C7: if the engine raises during stage `st` of
`TwentyOneStepProtocol.run` (with any stages `pre` before it already
completed), the protocol run raises that same error unmodified, whatever
the remaining stages `post` are — in particular no later stage is ever
constructed or run. -/
theorem c7_abort_on_stage_failure (p : TwentyOneStepProtocol) (f : ℤ)
    (pre post : List Stage) (st : Stage) (s s1 : SimState) (e : PyError)
    (hsch : p.schedule = pre ++ st :: post)
    (hpre : runStages f pre s = Except.ok s1)
    (herr : stageExec f st s1 = Except.error e) :
    p.run (PyValue.int f) s = Except.error e := by
  have hrun : p.run (PyValue.int f) s =
      if p.schedule = [] then
        Except.error (PyError.runtimeError
          ("Schedule is empty. Probably an error ocured during schedule generation."))
      else runStages f p.schedule s := rfl
  rw [hrun, hsch, if_neg (by simp)]
  exact runStages_append_error f pre post st s s1 e hpre herr

/-- A context whose very first engine call raises. -/
def c7_fail_state : SimState :=
  { forces := [], stepSize := picosecond (1 / 500), trace := [], calls := 0,
    failAt := some 0 }

/-- The first stage of the default schedule. -/
def c7_first_stage : Stage :=
  { temperature := kelvin 600, pressure := none, time := picosecond 50, name := "md1" }

/-- The remaining twenty stages of the default schedule. -/
def c7_rest : List Stage :=
  (TwentyOneStepProtocol.init default_max_pressure default_max_temperature).schedule.tail

/-- Witness for C7: on a context that raises at its first engine call,
the whole protocol run raises that engine error. -/
theorem c7_abort_witness :
    (TwentyOneStepProtocol.init default_max_pressure default_max_temperature).run
        (PyValue.int 500) c7_fail_state = Except.error (PyError.engineError 0) :=
  c7_abort_on_stage_failure
    (TwentyOneStepProtocol.init default_max_pressure default_max_temperature) 500 []
    c7_rest c7_first_stage c7_fail_state c7_fail_state (PyError.engineError 0) rfl rfl rfl

/-- The protocol constructed with both defaults. -/
def default_protocol : TwentyOneStepProtocol :=
  TwentyOneStepProtocol.init default_max_pressure default_max_temperature

/-- Claim C8 counterexample: `barostat_frequency = -1` is an `int` that
is not a positive integer, yet `run` raises no `TypeError` — the whole
protocol executes to completion (mutating the context), because the
source validates only `isinstance(barostat_frequency, int)` and never
checks positivity. -/
theorem c8_nonpositive_frequency_not_rejected :
    resultIsTypeError (default_protocol.run (PyValue.int (-1)) baseState) = false ∧
    resultIsOk (default_protocol.run (PyValue.int (-1)) baseState) = true :=
  ⟨rfl, rfl⟩

/-- Claim C8 (amended): constructing an `MDStep` whose temperature is not
a `Quantity` raises a `TypeError`, and calling `run` with a
`barostat_frequency` that is not an `int` raises a `TypeError`; in both
cases the error is raised by the leading type guard, before any engine
call touches the context.  (A non-positive integer frequency, however,
passes the guard.) -/
theorem c8_type_validation (s : SimState) (T P dq nm fv : PyValue)
    (p : TwentyOneStepProtocol)
    (hT : T.isQuantity = false) (hf : fv.isInt = false) :
    MDStep.init s T P dq nm = Except.error (PyError.typeError
      ("Arguments temperature and time should be instances of openmm.unit.Quantity")) ∧
    p.run fv s = Except.error (PyError.typeError
      ("Argument barostat_frequency should be an instance of int")) := by
  constructor
  · have hTq : T.getQuantity = none := by
      cases T <;> simp_all [PyValue.isQuantity, PyValue.getQuantity]
    unfold MDStep.init
    rw [hTq]
  · cases fv with
    | int n => simp [PyValue.isInt] at hf
    | quantity q => rfl
    | str s2 => rfl
    | pynone => rfl

/-- Witness for the amended C8 at concrete ill-typed inputs. -/
theorem c8_type_validation_witness :
    MDStep.init baseState (PyValue.int 3) PyValue.pynone
        (PyValue.quantity (picosecond 50)) (PyValue.str "x") =
      Except.error (PyError.typeError
        ("Arguments temperature and time should be instances of openmm.unit.Quantity")) ∧
    default_protocol.run (PyValue.str "soon") baseState =
      Except.error (PyError.typeError
        ("Argument barostat_frequency should be an instance of int")) :=
  c8_type_validation baseState (PyValue.int 3) PyValue.pynone
    (PyValue.quantity (picosecond 50)) (PyValue.str "x") (PyValue.str "soon")
    default_protocol rfl rfl

/-- Claim C9 counterexample: `MDStep` construction accepts a negative
temperature quantity (-5 K): no positivity check exists in the source,
so the claimed data-model invariant is not enforced. -/
theorem c9_nonpositive_temperature_accepted :
    MDStep.init baseState (PyValue.quantity (kelvin (-5))) PyValue.pynone
        (PyValue.quantity (picosecond 50)) (PyValue.str "x") =
      Except.ok
        { temperature := kelvin (-5), pressure := none, time := picosecond 50,
          name := "x",
          steps := pyRound ((picosecond 50).value / baseState.stepSize.value) } ∧
    (kelvin (-5)).value ≤ 0 :=
  ⟨rfl, by norm_num [kelvin]⟩

/-- Claim C9 (amended): construction enforces types only — a
successfully constructed `MDStep` took its temperature and duration from
`Quantity` arguments, its pressure from a `Quantity` or `None` argument
and its name from a `str` argument; positivity of the values is not
checked. -/
theorem c9_construction_type_invariant (s : SimState) (T P dq nm : PyValue) (md : MDStep)
    (h : MDStep.init s T P dq nm = Except.ok md) :
    T.isQuantity = true ∧ dq.isQuantity = true ∧
    (P.isNone = true ∨ P.isQuantity = true) ∧ nm.isStr = true ∧
    T = PyValue.quantity md.temperature ∧ dq = PyValue.quantity md.time ∧
    md.pressure = P.getQuantity := by
  cases T with
  | quantity tq =>
    cases dq with
    | quantity dqq =>
      simp only [MDStep.init, PyValue.getQuantity] at h
      split at h
      · exact Except.noConfusion h
      · rename_i hP
        cases nm with
        | str nmv =>
          cases Except.ok.inj h
          refine ⟨rfl, rfl, ?_, rfl, rfl, rfl, rfl⟩
          cases hn : P.isNone with
          | true => exact Or.inl rfl
          | false =>
            cases hq : P.isQuantity with
            | true => exact Or.inr rfl
            | false => exact absurd ⟨hn, hq⟩ hP
        | quantity q2 => exact Except.noConfusion h
        | int n => exact Except.noConfusion h
        | pynone => exact Except.noConfusion h
    | int n => exact Except.noConfusion h
    | str s2 => exact Except.noConfusion h
    | pynone => exact Except.noConfusion h
  | int n => exact Except.noConfusion h
  | str s2 => exact Except.noConfusion h
  | pynone => exact Except.noConfusion h

/-- Witness for the amended C9 at a concrete well-typed construction. -/
theorem c9_type_invariant_witness :
    (PyValue.quantity (kelvin 300)).isQuantity = true ∧
    (PyValue.quantity (picosecond 50)).isQuantity = true ∧
    (PyValue.pynone.isNone = true ∨ PyValue.pynone.isQuantity = true) ∧
    (PyValue.str "y").isStr = true ∧
    PyValue.quantity (kelvin 300) = PyValue.quantity c6_md.temperature ∧
    PyValue.quantity (picosecond 50) = PyValue.quantity c6_md.time ∧
    c6_md.pressure = PyValue.pynone.getQuantity := by
  have h := c9_construction_type_invariant baseState (PyValue.quantity (kelvin 300))
    PyValue.pynone (PyValue.quantity (picosecond 50)) (PyValue.str "y")
    { temperature := kelvin 300, pressure := none, time := picosecond 50, name := "y",
      steps := pyRound ((picosecond 50).value / baseState.stepSize.value) } rfl
  exact ⟨h.1, h.2.1, h.2.2.1, rfl, rfl, rfl, rfl⟩

end TwentyOneStep
